import Mathlib

/-!
Verification of `src/pokedex_app.py` (PedroAugustokkkk/poo_pokedex).

The file shallowly embeds the two components of the application core —
the `Pokemon` class with its `detalhes_busca` method, and the module-level
function `pegar_lista_pokemon` — together with the fragment of the rendering
script (lines 97-101) that one claim is about.

Modelling conventions:
* JSON values are the inductive `Json`; Python `None` and JSON `null` are both
  `Json.null`; JSON numbers are modelled as integers (the upstream payloads the
  program reads carry only integers in the fields it touches).
* Python exceptions relevant to the program are the inductive `PyExn`.
  `requests.get`, `raise_for_status` and `response.json` are not executed here;
  instead each call site takes the outcome of the HTTP round trip as an
  explicit `HttpOutcome` argument.  `requests.exceptions.JSONDecodeError` is a
  subclass of `requests.exceptions.RequestException` (requests >= 2.27), so the
  `except requests.exceptions.RequestException` clauses catch it; `KeyError`,
  `TypeError` and `AttributeError` raised while picking the payload apart are
  not caught and propagate.
* A method that mutates `self` is modelled as a function returning the new
  object state together with the exception it propagates (if any) and the
  number of `st.error` calls it performed.
* Python `str.title()`, `str.replace('-', ' ')` and true division `/ 10` are
  modelled character-by-character below; the title-casing model restricts the
  Unicode notion of "cased letter" to ASCII letters, which covers every string
  the upstream API produces.  Python floats are replaced by exact rationals
  (`Rat`); claims that hinge on IEEE-754 rounding are outside this embedding.
-/

/-- JSON values as delivered by `response.json()`; `null` doubles as Python
`None`, and objects are insertion-ordered association lists. -/
inductive Json where
  | null : Json
  | bool : Bool → Json
  | num : Int → Json
  | str : String → Json
  | arr : List Json → Json
  | obj : List (String × Json) → Json

/-- The Python exceptions the program can raise while handling a payload. -/
inductive PyExn where
  | keyError (k : String) : PyExn
  | typeError : PyExn
  | attributeError : PyExn
deriving DecidableEq

/-- Outcome of one `requests.get` round trip as seen by the caller:
the request raised a network-level `RequestException`, `raise_for_status`
raised `HTTPError` (non-success status), `response.json()` raised
`JSONDecodeError`, or the body parsed to a `Json` value. -/
inductive HttpOutcome where
  | networkError : HttpOutcome
  | httpError : HttpOutcome
  | jsonDecodeError : HttpOutcome
  | ok (data : Json) : HttpOutcome

/-- First-occurrence lookup in a Python-dict association list. -/
def lookupKey (k : String) : List (String × Json) → Option Json
  | [] => none
  | (a, v) :: rest => if a = k then some v else lookupKey k rest

/-- Python `d.get(k, default)` on a value known to be a dict. -/
def objGet (kvs : List (String × Json)) (k : String) (d : Json) : Json :=
  (lookupKey k kvs).getD d

/-- Python `j.get(k, default)` on an arbitrary value: `AttributeError` unless
`j` is a dict. -/
def pyGet (j : Json) (k : String) (d : Json) : Except PyExn Json :=
  match j with
  | .obj kvs => .ok (objGet kvs k d)
  | _ => .error .attributeError

/-- Subscription `j[k]` with a string key: value or `KeyError` on a dict,
`TypeError` on anything else. -/
def pyIndex (j : Json) (k : String) : Except PyExn Json :=
  match j with
  | .obj kvs =>
    match lookupKey k kvs with
    | some v => .ok v
    | none => .error (.keyError k)
  | _ => .error .typeError

/-- Iterating a value in a `for` / comprehension: a list yields its elements,
a string its characters, a dict its keys; other values raise `TypeError`. -/
def pyIter (j : Json) : Except PyExn (List Json) :=
  match j with
  | .arr l => .ok l
  | .str s => .ok (s.data.map (fun c => .str (String.singleton c)))
  | .obj kvs => .ok (kvs.map (fun kv => .str kv.1))
  | _ => .error .typeError

/-- One step of `str.title()`: the boolean records whether the previous
character was a letter; a letter is uppercased after a non-letter and
lowercased after a letter, non-letters pass through unchanged. -/
def pyTitleAux : Bool → List Char → List Char
  | _, [] => []
  | prevAlpha, c :: cs =>
    (if c.isAlpha then (if prevAlpha then c.toLower else c.toUpper) else c)
      :: pyTitleAux c.isAlpha cs

/-- Python `s.title()` (ASCII letters). -/
def pyTitle (s : String) : String :=
  ⟨pyTitleAux false s.data⟩

/-- Python `s.replace('-', ' ')`. -/
def dashToSpace (s : String) : String :=
  ⟨s.data.map (fun c => if c = '-' then ' ' else c)⟩

/-- Python `j.title()`: only strings have the method, anything else raises
`AttributeError`. -/
def pyStrTitle (j : Json) : Except PyExn String :=
  match j with
  | .str s => .ok (pyTitle s)
  | _ => .error .attributeError

/-- True division `j / 10`, with Python floats replaced by exact rationals;
non-numbers raise `TypeError`. -/
def pyDiv10 (j : Json) : Except PyExn Rat :=
  match j with
  | .num n => .ok ((n : Rat) / 10)
  | _ => .error .typeError

/-- Object state of the `Pokemon` class: exactly the attributes assigned in
`__init__` (src lines 10-19); `detalhes_busca` reassigns a subset of them
(src lines 30-47) and never introduces a new one. -/
structure Pokemon where
  nome : String
  url : String
  id : Json
  tipos : List String
  habilidades : List String
  altura : Option Rat
  peso : Option Rat
  imagem_url : Json
  stats : List (String × Json)

/-- Constructor `Pokemon.__init__(self, nome, url)` (src lines 9-19). -/
def Pokemon.init (nome url : String) : Pokemon :=
  { nome := pyTitle nome
    url := url
    id := .null
    tipos := []
    habilidades := []
    altura := none
    peso := none
    imagem_url := .null
    stats := [] }

/-- The comprehension `[t[key]['name'].title() for t in elems]` (src lines
40-41): evaluated left to right, the first malformed element aborts the whole
comprehension, so nothing is assigned on failure. -/
def extractNames (key : String) (elems : List Json) : Except PyExn (List String) :=
  elems.mapM (fun t => do
    let inner ← pyIndex t key
    let nameJ ← pyIndex inner "name"
    pyStrTitle nameJ)

/-- Replace the value stored under `k`, keeping its position. -/
def replacePair (k : String) (v : Json) : List (String × Json) → List (String × Json)
  | [] => []
  | (a, w) :: rest =>
    if a = k then (k, v) :: replacePair k v rest else (a, w) :: replacePair k v rest

/-- Assignment `self.stats[stat_name] = base_stat` on a Python dict: an existing key is
updated in place (keeping its original position in insertion order), a new key
is appended at the end. -/
def dictInsert (d : List (String × Json)) (k : String) (v : Json) : List (String × Json) :=
  if (lookupKey k d).isSome then
    replacePair k v d
  else
    d ++ [(k, v)]

/-- The `for stat in data.get('stats', [])` loop body (src lines 44-47),
threaded over the accumulated dict; a malformed element stops the loop and
propagates, keeping the entries inserted so far. -/
def statsLoop : List Json → List (String × Json) → List (String × Json) × Option PyExn
  | [], d => (d, none)
  | s :: rest, d =>
    match pyIndex s "stat" with
    | .error e => (d, some e)
    | .ok statObj =>
      match pyIndex statObj "name" with
      | .error e => (d, some e)
      | .ok nameJ =>
        match nameJ with
        | .str n =>
          match pyIndex s "base_stat" with
          | .error e => (d, some e)
          | .ok b => statsLoop rest (dictInsert d (pyTitle (dashToSpace n)) b)
        | _ => (d, some .attributeError)

/-- The nested sprite lookup (src lines 34-37):
`data.get('sprites', {}).get('other', {}).get('official-artwork', {}).get('front_default')`
written as the source writes it, one defaulted `get` per level. -/
def spritesChain (kvs : List (String × Json)) : Except PyExn Json :=
  match pyGet (objGet kvs "sprites" (.obj [])) "other" (.obj []) with
  | .error e => .error e
  | .ok other =>
    match pyGet other "official-artwork" (.obj []) with
    | .error e => .error e
    | .ok artwork => pyGet artwork "front_default" .null

/-- The `try` body of `detalhes_busca` after a successful parse (src lines
30-47): statements execute in source order, each assignment lands on `self`
before the next statement runs, and the first uncaught exception stops the
body with the mutations made so far kept. -/
def detailBody (p : Pokemon) (data : Json) : Pokemon × Option PyExn :=
  match data with
  | .obj kvs =>
    let p1 : Pokemon := { p with id := objGet kvs "id" .null }
    match pyDiv10 (objGet kvs "height" (.num 0)) with
    | .error e => (p1, some e)
    | .ok h =>
      let p2 : Pokemon := { p1 with altura := some h }
      match pyDiv10 (objGet kvs "weight" (.num 0)) with
      | .error e => (p2, some e)
      | .ok w =>
        let p3 : Pokemon := { p2 with peso := some w }
        match spritesChain kvs with
        | .error e => (p3, some e)
        | .ok img =>
          let p4 : Pokemon := { p3 with imagem_url := img }
          match (pyIter (objGet kvs "types" (.arr []))).bind (extractNames "type") with
          | .error e => (p4, some e)
          | .ok ts =>
            let p5 : Pokemon := { p4 with tipos := ts }
            match (pyIter (objGet kvs "abilities" (.arr []))).bind (extractNames "ability") with
            | .error e => (p5, some e)
            | .ok habs =>
              let p6 : Pokemon := { p5 with habilidades := habs }
              let p7 : Pokemon := { p6 with stats := [] }
              match pyIter (objGet kvs "stats" (.arr [])) with
              | .error e => (p7, some e)
              | .ok selems =>
                let r := statsLoop selems []
                ({ p7 with stats := r.1 }, r.2)
  | _ => (p, some .attributeError)

/-- Method `Pokemon.detalhes_busca(self)` (src lines 24-50): transport failures
(`RequestException`, which `HTTPError` and `JSONDecodeError` specialise) are
caught and reported with one `st.error` call, leaving `self` untouched;
exceptions raised while picking the parsed payload apart are not caught and
propagate with the partial mutations kept.  Result: (object state, propagated
exception if any, number of `st.error` calls). -/
def detalhes_busca (p : Pokemon) (resp : HttpOutcome) : Pokemon × Option PyExn × Nat :=
  match resp with
  | .ok data =>
    let r := detailBody p data
    (r.1, r.2, 0)
  | _ => (p, none, 1)

/-- Base URL of the upstream API (src line 5). -/
def BASE_URL : String := "https://pokeapi.co/api/v2/pokemon/"

/-- The one URL `pegar_lista_pokemon` ever requests (src line 55): the limit
is hard-coded to 151, the function takes no parameter. -/
def pegar_lista_url : String := BASE_URL ++ "?limit=151"

/-- Function `pegar_lista_pokemon()` (src lines 54-64): transport failures are caught,
reported with one `st.error` call, and turned into `[]`; on success the
function returns `data['results']` verbatim — if the parsed body is a dict
without a `'results'` key that subscription raises `KeyError`, and on a
non-dict body it raises `TypeError`, neither of which the `except` clause
catches. -/
def pegar_lista_pokemon (resp : HttpOutcome) : Except PyExn Json × Nat :=
  match resp with
  | .ok data => (pyIndex data "results", 0)
  | _ => (.ok (.arr []), 1)

/-- The attribute names defined on every `Pokemon` object: `__init__` assigns
exactly these (src lines 10-19) and `detalhes_busca` only reassigns a subset. -/
def pokemonAttrNames : List String :=
  ["nome", "url", "id", "tipos", "habilidades", "altura", "peso", "imagem_url", "stats"]

/-- Values an attribute access on a `Pokemon` object can produce. -/
inductive AttrVal where
  | s (v : String) : AttrVal
  | j (v : Json) : AttrVal
  | sl (v : List String) : AttrVal
  | r (v : Option Rat) : AttrVal
  | d (v : List (String × Json)) : AttrVal

/-- Python `getattr(p, a)` as an option: `none` means the access raises
`AttributeError`. -/
def Pokemon.getattr (p : Pokemon) (a : String) : Option AttrVal :=
  if a = "nome" then some (.s p.nome)
  else if a = "url" then some (.s p.url)
  else if a = "id" then some (.j p.id)
  else if a = "tipos" then some (.sl p.tipos)
  else if a = "habilidades" then some (.sl p.habilidades)
  else if a = "altura" then some (.r p.altura)
  else if a = "peso" then some (.r p.peso)
  else if a = "imagem_url" then some (.j p.imagem_url)
  else if a = "stats" then some (.d p.stats)
  else none

/-- Python truthiness of an attribute value (used by `if pokemon.image_url:`). -/
def pyTruthy : AttrVal → Bool
  | .s v => v != ""
  | .j .null => false
  | .j (.bool b) => b
  | .j (.num n) => n != 0
  | .j (.str s) => s != ""
  | .j (.arr []) => false
  | .j (.arr (_ :: _)) => true
  | .j (.obj []) => false
  | .j (.obj (_ :: _)) => true
  | .sl [] => false
  | .sl (_ :: _) => true
  | .r none => false
  | .r (some q) => q != 0
  | .d [] => false
  | .d (_ :: _) => true

/-- The `col1` rendering block (src lines 97-101):
`if pokemon.image_url: st.image(pokemon.image_url, caption=pokemon.name)`.
An attribute access that is undefined on the object raises `AttributeError`. -/
def renderCol1 (p : Pokemon) : Except PyExn Unit :=
  match p.getattr "image_url" with
  | none => .error .attributeError
  | some v =>
    if pyTruthy v then
      match p.getattr "name" with
      | none => .error .attributeError
      | some _ => .ok ()
    else
      .ok ()

/-- Test-payload builder: the well-formed shape of one element of the
upstream `stats` array, `{stat: {name: n}, base_stat: b}`. -/
def mkStatEntry (n : String) (b : Int) : Json :=
  .obj [("stat", .obj [("name", .str n)]), ("base_stat", .num b)]

/-- The flag `pyTitleAux` carries when it reaches position `i`, expressed
non-recursively: at position 0 it is the initial flag, afterwards it is
whether the previous character is a letter. -/
def titleFlag (prev : Bool) (cs : List Char) : Nat → Bool
  | 0 => prev
  | j + 1 => ((cs[j]?).map Char.isAlpha).getD false

/-! ## Helper lemmas -/

theorem detailBody_keeps_nome_url (p : Pokemon) (data : Json) :
    (detailBody p data).1.nome = p.nome ∧ (detailBody p data).1.url = p.url := by
  cases data <;> (try exact ⟨rfl, rfl⟩)
  unfold detailBody
  repeat' split
  all_goals exact ⟨rfl, rfl⟩

theorem lookupKey_append_of_none {k : String} {d : List (String × Json)}
    (e : List (String × Json)) (h : lookupKey k d = none) :
    lookupKey k (d ++ e) = lookupKey k e := by
  induction d with
  | nil => rfl
  | cons p rest ih =>
    obtain ⟨a, v⟩ := p
    rw [List.cons_append]
    simp only [lookupKey] at h ⊢
    by_cases ha : a = k
    · rw [if_pos ha] at h
      cases h
    · rw [if_neg ha] at h
      rw [if_neg ha]
      exact ih h

theorem lookupKey_replace {k : String} (v : Json) (d : List (String × Json)) :
    lookupKey k (replacePair k v d) =
      if (lookupKey k d).isSome then some v else none := by
  induction d with
  | nil => rfl
  | cons p rest ih =>
    obtain ⟨a, w⟩ := p
    by_cases ha : a = k
    · simp [replacePair, lookupKey, ha]
    · simp [replacePair, lookupKey, ha, ih]

theorem map_fst_replace {k : String} (v : Json) (d : List (String × Json)) :
    (replacePair k v d).map Prod.fst = d.map Prod.fst := by
  induction d with
  | nil => rfl
  | cons p rest ih =>
    obtain ⟨a, w⟩ := p
    by_cases ha : a = k
    · simp [replacePair, ha, ih]
    · simp [replacePair, ha, ih]

theorem titleFlag_cons (prev : Bool) (c : Char) (rest : List Char) (j : Nat) :
    titleFlag c.isAlpha rest j = titleFlag prev (c :: rest) (j + 1) := by
  cases j <;> simp [titleFlag]

theorem pyTitleAux_getElem (cs : List Char) (prev : Bool) (i : Nat) :
    (pyTitleAux prev cs)[i]? = (cs[i]?).map (fun c =>
      if c.isAlpha then (if titleFlag prev cs i then c.toLower else c.toUpper) else c) := by
  induction cs generalizing prev i with
  | nil => simp [pyTitleAux]
  | cons c rest ih =>
    cases i with
    | zero => simp [pyTitleAux, titleFlag]
    | succ j =>
      simp only [pyTitleAux, List.getElem?_cons_succ]
      rw [ih c.isAlpha j, titleFlag_cons prev c rest j]

/-! ## Claims -/

/-- Claim C1 (amended): `detalhes_busca` returns normally with `nome` (the
title-cased display name) and `url` (the source reference) populated on
network failure, non-success status and a body that fails to parse as JSON —
and `nome`/`url` survive every call — but a malformed element inside the
`types` array (one missing its `'type'` key) makes the method propagate a
`KeyError` to the caller instead of returning normally. -/
theorem claim_C1 (nome u : String) (resp : HttpOutcome) :
    ((resp = .networkError ∨ resp = .httpError ∨ resp = .jsonDecodeError) →
      detalhes_busca (Pokemon.init nome u) resp = (Pokemon.init nome u, none, 1)) ∧
    (detalhes_busca (Pokemon.init nome u) resp).1.nome = pyTitle nome ∧
    (detalhes_busca (Pokemon.init nome u) resp).1.url = u ∧
    (∀ rest : List Json,
      resp = .ok (.obj [("types", .arr (.obj [] :: rest))]) →
      (detalhes_busca (Pokemon.init nome u) resp).2.1 = some (.keyError "type")) := by
  refine ⟨?_, ?_, ?_, ?_⟩
  · rintro (rfl | rfl | rfl) <;> rfl
  · cases resp with
    | ok data => exact (detailBody_keeps_nome_url (Pokemon.init nome u) data).1
    | networkError => rfl
    | httpError => rfl
    | jsonDecodeError => rfl
  · cases resp with
    | ok data => exact (detailBody_keeps_nome_url (Pokemon.init nome u) data).2
    | networkError => rfl
    | httpError => rfl
    | jsonDecodeError => rfl
  · rintro rest rfl
    rfl

/-- Witness for C1: the transport-failure conjunct at a concrete entry, and
the raising conjunct at a concrete malformed payload. -/
theorem claim_C1_witness :
    detalhes_busca (Pokemon.init "bulbasaur" "u") .networkError
      = (Pokemon.init "bulbasaur" "u", none, 1) ∧
    (detalhes_busca (Pokemon.init "bulbasaur" "u")
        (.ok (.obj [("types", .arr [.obj []])]))).2.1 = some (.keyError "type") :=
  ⟨(claim_C1 "bulbasaur" "u" .networkError).1 (Or.inl rfl),
   (claim_C1 "bulbasaur" "u" (.ok (.obj [("types", .arr [.obj []])]))).2.2.2 [] rfl⟩

/-- Counterexample to C1 as stated: on a payload whose `types` array holds an
element without a `'type'` key, `detalhes_busca` propagates `KeyError` to the
caller rather than returning normally. -/
theorem claim_C1_counterexample :
    (detalhes_busca (Pokemon.init "bulbasaur" "https://pokeapi.co/api/v2/pokemon/1/")
        (.ok (.obj [("types", .arr [.obj []])]))).2.1 = some (.keyError "type") := rfl

/-- Claim C2 (amended): on network failure, non-success status, or a body that
fails to parse as JSON, `pegar_lista_pokemon` returns the empty list and
reports exactly one failure; but a body that parses to a JSON object without a
`'results'` field makes it propagate `KeyError` past its boundary with no
failure reported. -/
theorem claim_C2 (resp : HttpOutcome) :
    ((resp = .networkError ∨ resp = .httpError ∨ resp = .jsonDecodeError) →
      pegar_lista_pokemon resp = (.ok (.arr []), 1)) ∧
    (∀ kvs : List (String × Json), lookupKey "results" kvs = none →
      pegar_lista_pokemon (.ok (.obj kvs)) = (.error (.keyError "results"), 0)) := by
  constructor
  · rintro (rfl | rfl | rfl) <;> rfl
  · intro kvs h
    simp [pegar_lista_pokemon, pyIndex, h]

/-- Witness for C2: both conjuncts at concrete inputs. -/
theorem claim_C2_witness :
    pegar_lista_pokemon .networkError = (.ok (.arr []), 1) ∧
    pegar_lista_pokemon (.ok (.obj [])) = (.error (.keyError "results"), 0) :=
  ⟨(claim_C2 .networkError).1 (Or.inl rfl), (claim_C2 (.ok (.obj []))).2 [] rfl⟩

/-- Counterexample to C2 as stated: a body that parses to a JSON object
without a `'results'` field raises `KeyError` (zero failures reported, no
empty sequence returned). -/
theorem claim_C2_counterexample :
    pegar_lista_pokemon (.ok (.obj [("count", .num 1302)]))
      = (.error (.keyError "results"), 0) := rfl

/-- Claim C4: when the detail request fails with a network error or a
non-success status, `detalhes_busca` reports exactly one failure, propagates
nothing, and leaves the object exactly as constructed: `nome` and `url` keep
their construction values and every other attribute is still unset/empty. -/
theorem claim_C4 (nome u : String) (resp : HttpOutcome)
    (h : resp = .networkError ∨ resp = .httpError) :
    detalhes_busca (Pokemon.init nome u) resp = (Pokemon.init nome u, none, 1) ∧
    (Pokemon.init nome u).nome = pyTitle nome ∧
    (Pokemon.init nome u).url = u ∧
    (Pokemon.init nome u).id = .null ∧
    (Pokemon.init nome u).tipos = [] ∧
    (Pokemon.init nome u).habilidades = [] ∧
    (Pokemon.init nome u).altura = none ∧
    (Pokemon.init nome u).peso = none ∧
    (Pokemon.init nome u).imagem_url = .null ∧
    (Pokemon.init nome u).stats = [] := by
  rcases h with rfl | rfl <;>
    exact ⟨rfl, rfl, rfl, rfl, rfl, rfl, rfl, rfl, rfl, rfl⟩

/-- Witness for C4 at a concrete entry and a non-success status outcome. -/
theorem claim_C4_witness :
    detalhes_busca (Pokemon.init "pikachu" "https://pokeapi.co/api/v2/pokemon/25/") .httpError
      = (Pokemon.init "pikachu" "https://pokeapi.co/api/v2/pokemon/25/", none, 1) ∧
    (Pokemon.init "pikachu" "https://pokeapi.co/api/v2/pokemon/25/").nome = pyTitle "pikachu" ∧
    (Pokemon.init "pikachu" "https://pokeapi.co/api/v2/pokemon/25/").url
      = "https://pokeapi.co/api/v2/pokemon/25/" ∧
    (Pokemon.init "pikachu" "https://pokeapi.co/api/v2/pokemon/25/").id = .null ∧
    (Pokemon.init "pikachu" "https://pokeapi.co/api/v2/pokemon/25/").tipos = [] ∧
    (Pokemon.init "pikachu" "https://pokeapi.co/api/v2/pokemon/25/").habilidades = [] ∧
    (Pokemon.init "pikachu" "https://pokeapi.co/api/v2/pokemon/25/").altura = none ∧
    (Pokemon.init "pikachu" "https://pokeapi.co/api/v2/pokemon/25/").peso = none ∧
    (Pokemon.init "pikachu" "https://pokeapi.co/api/v2/pokemon/25/").imagem_url = .null ∧
    (Pokemon.init "pikachu" "https://pokeapi.co/api/v2/pokemon/25/").stats = [] :=
  claim_C4 "pikachu" "https://pokeapi.co/api/v2/pokemon/25/" .httpError (Or.inr rfl)

/-- Claim C3: in the successful-parse path every field has its own default, so
a missing key never aborts the others: with all seven payload keys absent the
whole extraction still succeeds with nothing reported — `id` stays `None`,
`altura`/`peso` become `0/10`, the sequences stay empty — and a missing key at
any of the four levels of the sprite chain yields `None` without an error. -/
theorem claim_C3 :
    (∀ (nome u : String) (kvs : List (String × Json)),
      lookupKey "id" kvs = none → lookupKey "height" kvs = none →
      lookupKey "weight" kvs = none → lookupKey "sprites" kvs = none →
      lookupKey "types" kvs = none → lookupKey "abilities" kvs = none →
      lookupKey "stats" kvs = none →
      detalhes_busca (Pokemon.init nome u) (.ok (.obj kvs)) =
        ({ Pokemon.init nome u with altura := some 0, peso := some 0 }, none, 0)) ∧
    (∀ kvs : List (String × Json),
      lookupKey "sprites" kvs = none → spritesChain kvs = .ok .null) ∧
    (∀ (kvs s : List (String × Json)),
      lookupKey "sprites" kvs = some (.obj s) → lookupKey "other" s = none →
      spritesChain kvs = .ok .null) ∧
    (∀ (kvs s o : List (String × Json)),
      lookupKey "sprites" kvs = some (.obj s) → lookupKey "other" s = some (.obj o) →
      lookupKey "official-artwork" o = none → spritesChain kvs = .ok .null) ∧
    (∀ (kvs s o a : List (String × Json)),
      lookupKey "sprites" kvs = some (.obj s) → lookupKey "other" s = some (.obj o) →
      lookupKey "official-artwork" o = some (.obj a) → lookupKey "front_default" a = none →
      spritesChain kvs = .ok .null) := by
  refine ⟨?_, ?_, ?_, ?_, ?_⟩
  · intro nome u kvs h1 h2 h3 h4 h5 h6 h7
    have hz : ((0 : Int) : Rat) / 10 = 0 := by norm_num
    simp [detalhes_busca, detailBody, objGet, spritesChain, pyGet, pyDiv10, pyIter,
      extractNames, statsLoop, lookupKey, Except.bind, List.mapM, List.mapM.loop,
      pure, Except.pure, h1, h2, h3, h4, h5, h6, h7, hz, Pokemon.init]
  · intro kvs h
    simp [spritesChain, objGet, pyGet, lookupKey, h]
  · intro kvs s h1 h2
    simp [spritesChain, objGet, pyGet, lookupKey, h1, h2]
  · intro kvs s o h1 h2 h3
    simp [spritesChain, objGet, pyGet, lookupKey, h1, h2, h3]
  · intro kvs s o a h1 h2 h3 h4
    simp [spritesChain, objGet, pyGet, lookupKey, h1, h2, h3, h4]

/-- Witness for C3: the all-keys-absent payload `{}` and concrete sprite
objects truncated at each level. -/
theorem claim_C3_witness :
    detalhes_busca (Pokemon.init "eevee" "u") (.ok (.obj [])) =
      ({ Pokemon.init "eevee" "u" with altura := some 0, peso := some 0 }, none, 0) ∧
    spritesChain [] = .ok .null ∧
    spritesChain [("sprites", .obj [])] = .ok .null ∧
    spritesChain [("sprites", .obj [("other", .obj [])])] = .ok .null ∧
    spritesChain [("sprites", .obj [("other", .obj [("official-artwork", .obj [])])])]
      = .ok .null :=
  ⟨claim_C3.1 "eevee" "u" [] rfl rfl rfl rfl rfl rfl rfl,
   claim_C3.2.1 [] rfl,
   claim_C3.2.2.1 [("sprites", .obj [])] [] rfl rfl,
   claim_C3.2.2.2.1 [("sprites", .obj [("other", .obj [])])] [("other", .obj [])] [] rfl rfl rfl,
   claim_C3.2.2.2.2 [("sprites", .obj [("other", .obj [("official-artwork", .obj [])])])]
     [("other", .obj [("official-artwork", .obj [])])] [("official-artwork", .obj [])] []
     rfl rfl rfl rfl⟩

/-- Claim C5 (amended): when a stats payload repeats a normalized name, the
later entry's value wins, but the key keeps its first-occurrence position in
the mapping order — a Python dict update rewrites the value in place and does
not move the key to the end. -/
theorem claim_C5 (d : List (String × Json)) (k : String) (v : Json) :
    lookupKey k (dictInsert d k v) = some v ∧
    ((dictInsert d k v).map Prod.fst =
      if (lookupKey k d).isSome then d.map Prod.fst else d.map Prod.fst ++ [k]) ∧
    (detalhes_busca (Pokemon.init "p" "u")
        (.ok (.obj [("stats",
          .arr [mkStatEntry "speed" 1, mkStatEntry "attack" 2, mkStatEntry "speed" 3])]))).1.stats
      = [("Speed", .num 3), ("Attack", .num 2)] := by
  refine ⟨?_, ?_, rfl⟩
  · unfold dictInsert
    by_cases h : (lookupKey k d).isSome
    · rw [if_pos h, lookupKey_replace, if_pos h]
    · rw [if_neg h, lookupKey_append_of_none _ (Option.not_isSome_iff_eq_none.mp h)]
      simp [lookupKey]
  · unfold dictInsert
    by_cases h : (lookupKey k d).isSome
    · rw [if_pos h, if_pos h, map_fst_replace]
    · rw [if_neg h, if_neg h]
      simp

/-- Counterexample to C5 as stated: with stats `speed=1, attack=2, speed=3`
the resulting mapping is `[Speed ↦ 3, Attack ↦ 2]` — the duplicated key sits
at its first-occurrence position, not after `Attack` as a last-write order
would demand. -/
theorem claim_C5_counterexample :
    (detalhes_busca (Pokemon.init "p" "u")
        (.ok (.obj [("stats",
          .arr [mkStatEntry "speed" 1, mkStatEntry "attack" 2, mkStatEntry "speed" 3])]))).1.stats
      = [("Speed", .num 3), ("Attack", .num 2)] ∧
    (detalhes_busca (Pokemon.init "p" "u")
        (.ok (.obj [("stats",
          .arr [mkStatEntry "speed" 1, mkStatEntry "attack" 2, mkStatEntry "speed" 3])]))).1.stats
      ≠ [("Attack", .num 2), ("Speed", .num 3)] := by
  refine ⟨rfl, ?_⟩
  intro h
  have h0 : (detalhes_busca (Pokemon.init "p" "u")
      (.ok (.obj [("stats",
        .arr [mkStatEntry "speed" 1, mkStatEntry "attack" 2, mkStatEntry "speed" 3])]))).1.stats
      = [("Speed", Json.num 3), ("Attack", Json.num 2)] := rfl
  rw [h0] at h
  injection h with hhead _
  injection hhead with hk _
  exact absurd hk (by decide)

/-- Claim C7 (amended): `str.title()` capitalizes the first letter of every
maximal run of letters — every letter whose predecessor is absent or not a
letter, including one right after an apostrophe or hyphen — and lowercases
every other letter; non-letters pass through unchanged. -/
theorem claim_C7 (s : String) (i : Nat) :
    (pyTitle s).data[i]? = (s.data[i]?).map (fun c =>
      if c.isAlpha then (if titleFlag false s.data i then c.toLower else c.toUpper) else c) :=
  pyTitleAux_getElem s.data false i

/-- Counterexample to C7 as stated: `"ho-oh".title()` is `"Ho-Oh"` — the
letter after the hyphen, inside a single whitespace-separated word, is
capitalized, so title-casing is not per whitespace-separated word. -/
theorem claim_C7_counterexample :
    pyTitle "ho-oh" = "Ho-Oh" ∧ pyTitle "ho-oh" ≠ "Ho-oh" :=
  ⟨by decide, by decide⟩

theorem statsLoop_wellformed (l : List (String × Int)) :
    ∀ d : List (String × Json),
    (∀ p ∈ l, lookupKey (pyTitle (dashToSpace p.1)) d = none) →
    ((l.map fun p => pyTitle (dashToSpace p.1)).Nodup) →
    statsLoop (l.map fun p => mkStatEntry p.1 p.2) d =
      (d ++ l.map (fun p => (pyTitle (dashToSpace p.1), Json.num p.2)), none) := by
  induction l with
  | nil =>
    intro d _ _
    simp [statsLoop]
  | cons p rest ih =>
    obtain ⟨n, b⟩ := p
    intro d hd hnd
    have hkey : lookupKey (pyTitle (dashToSpace n)) d = none := hd (n, b) (by simp)
    simp only [List.map_cons] at hnd ⊢
    rw [List.nodup_cons] at hnd
    have hstep : statsLoop (mkStatEntry n b :: rest.map (fun p => mkStatEntry p.1 p.2)) d
        = statsLoop (rest.map (fun p => mkStatEntry p.1 p.2))
            (dictInsert d (pyTitle (dashToSpace n)) (.num b)) := rfl
    rw [hstep]
    have hins : dictInsert d (pyTitle (dashToSpace n)) (.num b)
        = d ++ [(pyTitle (dashToSpace n), .num b)] := by
      simp [dictInsert, hkey]
    rw [hins]
    have hfree : ∀ q ∈ rest,
        lookupKey (pyTitle (dashToSpace q.1)) (d ++ [(pyTitle (dashToSpace n), Json.num b)])
          = none := by
      intro q hq
      have h1 := hd q (List.mem_cons_of_mem _ hq)
      have hne : pyTitle (dashToSpace n) ≠ pyTitle (dashToSpace q.1) := by
        intro he
        exact hnd.1 (he ▸ List.mem_map_of_mem (fun p => pyTitle (dashToSpace p.1)) hq)
      rw [lookupKey_append_of_none _ h1]
      simp [lookupKey, hne]
    rw [ih (d ++ [(pyTitle (dashToSpace n), Json.num b)]) hfree hnd.2]
    simp

/-- Claim C8: for a stats array of well-formed entries whose normalized names
are pairwise distinct, the resulting mapping sends, in order of appearance,
the title-cased stat name with hyphens replaced by spaces to that entry's
`base_stat`. -/
theorem claim_C8 (nome u : String) (l : List (String × Int))
    (h : (l.map fun p => pyTitle (dashToSpace p.1)).Nodup) :
    (detalhes_busca (Pokemon.init nome u)
        (.ok (.obj [("stats", .arr (l.map fun p => mkStatEntry p.1 p.2))]))).1.stats
      = l.map fun p => (pyTitle (dashToSpace p.1), Json.num p.2) := by
  have hred : (detalhes_busca (Pokemon.init nome u)
      (.ok (.obj [("stats", .arr (l.map fun p => mkStatEntry p.1 p.2))]))).1.stats
      = (statsLoop (l.map fun p => mkStatEntry p.1 p.2) []).1 := rfl
  rw [hred, statsLoop_wellformed l [] (fun p _ => rfl) h]
  simp

/-- Witness for C8: the payload `stats: [{stat:{name:"special-attack"}, base_stat: 50}]`
produces the mapping `[("Special Attack", 50)]`. -/
theorem claim_C8_witness :
    (detalhes_busca (Pokemon.init "pikachu" "u")
        (.ok (.obj [("stats", .arr [mkStatEntry "special-attack" 50])]))).1.stats
      = [("Special Attack", Json.num 50)] :=
  (claim_C8 "pikachu" "u" [("special-attack", 50)] (by decide)).trans rfl

/-- Claim C9 (amended): the catalog lister takes no limit parameter — the one
request it ever issues carries the fixed query `limit=151` — and on a
successful parse it returns the payload's `results` value verbatim, without
bounding its length and without checking entries for non-empty name or
reference. -/
theorem claim_C9 (kvs : List (String × Json)) (v : Json)
    (h : lookupKey "results" kvs = some v) :
    pegar_lista_pokemon (.ok (.obj kvs)) = (.ok v, 0) ∧
    pegar_lista_url = "https://pokeapi.co/api/v2/pokemon/?limit=151" := by
  constructor
  · simp [pegar_lista_pokemon, pyIndex, h]
  · rfl

/-- Witness for C9 at a concrete successful payload. -/
theorem claim_C9_witness :
    pegar_lista_pokemon (.ok (.obj [("results", .arr [])])) = (.ok (.arr []), 0) ∧
    pegar_lista_url = "https://pokeapi.co/api/v2/pokemon/?limit=151" :=
  claim_C9 [("results", .arr [])] (.arr []) rfl

/-- Counterexample to C9 as stated: a successful response whose `results`
array holds an entry with empty name and empty url is returned verbatim, so
the returned sequence does not consist of entries with non-empty name and
reference. -/
theorem claim_C9_counterexample :
    pegar_lista_pokemon
        (.ok (.obj [("results", .arr [.obj [("name", .str ""), ("url", .str "")]])]))
      = (.ok (.arr [.obj [("name", .str ""), ("url", .str "")]]), 0) := rfl

theorem getattr_isSome (p : Pokemon) (a : String) :
    (p.getattr a).isSome = true ↔ a ∈ pokemonAttrNames := by
  unfold Pokemon.getattr pokemonAttrNames
  repeat' split
  all_goals simp_all

/-- Claim C10: after construction and any number of `detalhes_busca` calls,
the defined attributes of a `Pokemon` object are exactly
`nome, url, id, tipos, habilidades, altura, peso, imagem_url, stats`; the
attributes `image_url` and `name` are never defined, so the rendering block's
access `pokemon.image_url` raises `AttributeError` whenever it runs. -/
theorem claim_C10 (nome u : String) (resps : List HttpOutcome) (a : String) :
    (((resps.foldl (fun q r => (detalhes_busca q r).1) (Pokemon.init nome u)).getattr a).isSome
        = true ↔ a ∈ pokemonAttrNames) ∧
    (resps.foldl (fun q r => (detalhes_busca q r).1) (Pokemon.init nome u)).getattr "image_url"
      = none ∧
    (resps.foldl (fun q r => (detalhes_busca q r).1) (Pokemon.init nome u)).getattr "name"
      = none ∧
    renderCol1 (resps.foldl (fun q r => (detalhes_busca q r).1) (Pokemon.init nome u))
      = .error .attributeError :=
  ⟨getattr_isSome _ a, rfl, rfl, rfl⟩
